import Mathlib

/-!
The RGCNLayer binding (`rgcn_layer_wrap.cpp`).

`init_rgcn_layer` registers the class `RGCNLayer` with five read/write attributes, two
constructors (the config form and a convenience form given as a lambda), `reset` and
`forward`.  The lambda and the argument wiring are embedded from the binding file.  The class
`RGCNLayer` itself, `LayerConfig`, `InitConfig`, `GNNLayerOptions` and `getActivationFunction`
are declared in headers outside the binding file; they enter either as parameters or as
definitions marked `Modelled from the spec:`.
-/

namespace RGCNWrap

/-! ## Declarations the binding consumes -/

/-- Error kinds a call through the binding can end in: the three kinds of the
error-handling design, and the `TypeError` the binding layer raises when a call leaves out an
argument that has no default. -/
inductive Error
  | ConfigurationError
  | ShapeMismatchError
  | RelationIndexError
  | TypeError
  deriving DecidableEq, Repr

/-- Modelled from the spec: the layer kind tag of a `LayerConfig` (enumeration `LayerType`,
declared outside the binding file). The binding names the member `GNN`; the members it does
not name are collected under `OTHER`. -/
inductive LayerType
  | GNN
  | OTHER (tag : Nat)
  deriving DecidableEq, Repr

/-- Modelled from the spec: the tagged choice of initialization distribution (enumeration
`InitDistribution`, declared outside the binding file). The binding names `GLOROT_UNIFORM`
and `ZEROS`; the members it does not name are collected under `OTHER`. -/
inductive InitDistribution
  | GLOROT_UNIFORM
  | ZEROS
  | OTHER (tag : Nat)
  deriving DecidableEq, Repr

/-- The device kinds of the tensor runtime: the host (`torch::kCPU`) and an accelerator. -/
inductive DeviceType
  | kCPU
  | kCUDA
  deriving DecidableEq, Repr

/-- A `torch::Device`: a device kind and a device index. -/
structure Device where
  type : DeviceType
  index : Int
  deriving DecidableEq, Repr

/-- The implicit conversion `torch::Device(DeviceType)` used by
`torch::Device torch_device = torch::kCPU;`: the index is left at its default `-1`. -/
def Device.ofType (t : DeviceType) : Device :=
  { type := t, index := -1 }

/-- The types the binding uses only as black boxes: the layer-specific options
(`GNNLayerOptions`), the distribution parameters of an `InitConfig`, the optimizer
configuration and the activation identifier (`ActivationFunction`). -/
structure Decls where
  LayerOptions : Type
  InitOptions : Type
  OptimizerConfig : Type
  ActivationFunction : Type

/-- Modelled from the spec: `InitConfig` (declared outside the binding file), a tagged choice
of initialization distribution plus optional distribution parameters. The binding builds it
as `InitConfig(distribution, nullptr)`. -/
structure InitConfig (D : Decls) where
  type : InitDistribution
  options : Option D.InitOptions

/-- Modelled from the spec: `LayerConfig` (declared outside the binding file) with the nine
fields of the data model, which are the nine fields the convenience constructor assigns. The
optimizer reference is the nullable one. -/
structure LayerConfig (D : Decls) where
  type : LayerType
  options : D.LayerOptions
  input_dim : Int
  output_dim : Int
  init : InitConfig D
  optimizer : Option D.OptimizerConfig
  bias : Bool
  bias_init : InitConfig D
  activation : D.ActivationFunction

/-- What the convenience constructor calls besides the layer constructor:
`std::make_shared<LayerConfig>()`, `std::make_shared<GNNLayerOptions>()` and
`getActivationFunction`, which may throw. -/
structure Env (D : Decls) where
  new_LayerConfig : LayerConfig D
  new_GNNLayerOptions : D.LayerOptions
  getActivationFunction : String → Except Error D.ActivationFunction

/-! ## The binding -/

/-- The lambda of the convenience constructor (lines 21-50). `RGCNLayer_new` is
`std::make_shared<RGCNLayer>(layer_config, num_relations, torch_device)`, the config-form
constructor. The `int` arguments are stored and passed on without arithmetic, so they are
integers here. -/
def convenience_init {D : Decls} {Layer : Type} (E : Env D)
    (RGCNLayer_new : LayerConfig D → Int → Device → Except Error Layer)
    (input_dim output_dim num_relations : Int) (device : Option Device)
    (init : InitConfig D) (bias : Bool) (bias_init : InitConfig D) (activation : String) :
    Except Error Layer := do
  let layer_config := E.new_LayerConfig
  let layer_config := { layer_config with input_dim := input_dim }
  let layer_config := { layer_config with output_dim := output_dim }
  let layer_config := { layer_config with type := LayerType.GNN }
  let layer_options := E.new_GNNLayerOptions
  let layer_config := { layer_config with options := layer_options }
  let layer_config := { layer_config with init := init }
  let layer_config := { layer_config with bias := bias }
  let layer_config := { layer_config with bias_init := bias_init }
  let layer_config := { layer_config with optimizer := none }
  let activation_function ← E.getActivationFunction activation
  let layer_config := { layer_config with activation := activation_function }
  let torch_device :=
    match device with
    | some d => d
    | none => Device.ofType DeviceType.kCPU
  RGCNLayer_new layer_config num_relations torch_device

/-- How the binding layer fills one parameter of a call: the value the caller supplied, else
the default registered with `py::arg(...) = default`, else the call is rejected. -/
def py_arg {τ : Type} (dflt : Option τ) (supplied : Option τ) : Except Error τ :=
  match supplied, dflt with
  | some v, _ => Except.ok v
  | none, some d => Except.ok d
  | none, none => Except.error Error.TypeError

/-- The config-form constructor as registered on lines 17-20: three parameters, none with a
default, handed to the constructor of `RGCNLayer`. -/
def py_config_init {D : Decls} {Layer : Type}
    (RGCNLayer_new : LayerConfig D → Int → Device → Except Error Layer)
    (layer_config : Option (LayerConfig D)) (num_relations : Option Int)
    (device : Option Device) : Except Error Layer := do
  let layer_config ← py_arg none layer_config
  let num_relations ← py_arg none num_relations
  let device ← py_arg none device
  RGCNLayer_new layer_config num_relations device

/-- The convenience constructor as registered on lines 21-58: the lambda behind the eight
`py::arg` entries with their defaults. An argument the caller leaves out is `none`; for
`device` the caller may also pass the scripting language's null value explicitly. -/
def py_convenience_init {D : Decls} {Layer : Type} (E : Env D)
    (RGCNLayer_new : LayerConfig D → Int → Device → Except Error Layer)
    (input_dim output_dim num_relations : Option Int) (device : Option (Option Device))
    (init : Option (InitConfig D)) (bias : Option Bool) (bias_init : Option (InitConfig D))
    (activation : Option String) : Except Error Layer := do
  let input_dim ← py_arg none input_dim
  let output_dim ← py_arg none output_dim
  let num_relations ← py_arg none num_relations
  let device ← py_arg (some none) device
  let init ← py_arg (some { type := InitDistribution.GLOROT_UNIFORM, options := none }) init
  let bias ← py_arg (some false) bias
  let bias_init ← py_arg (some { type := InitDistribution.ZEROS, options := none }) bias_init
  let activation ← py_arg (some "none") activation
  convenience_init E RGCNLayer_new input_dim output_dim num_relations device init bias
    bias_init activation

/-- The binding of `forward` (lines 60-63): `inputs` and `dense_graph` without a default,
`train` with the default `true`, handed to `RGCNLayer::forward`. -/
def py_forward {Layer Inputs Graph Output : Type}
    (forward : Layer → Inputs → Graph → Bool → Except Error Output)
    (self : Layer) (inputs : Option Inputs) (dense_graph : Option Graph)
    (train : Option Bool) : Except Error Output := do
  let inputs ← py_arg none inputs
  let dense_graph ← py_arg none dense_graph
  let train ← py_arg (some true) train
  forward self inputs dense_graph train

/-- The config-form constructor replaced by a probe that hands back the configuration it is
called with. -/
def probeConfig {D : Decls} (c : LayerConfig D) (_n : Int) (_d : Device) :
    Except Error (LayerConfig D) :=
  Except.ok c

/-- The config-form constructor replaced by a probe that hands back the relation count and
the device it is called with. -/
def probeCall {D : Decls} (_c : LayerConfig D) (n : Int) (d : Device) :
    Except Error (Int × Device) :=
  Except.ok (n, d)

/-- The `LayerConfig` the convenience constructor builds: what reaches the config-form
constructor, observed with `probeConfig`. -/
def builtConfig {D : Decls} (E : Env D)
    (input_dim output_dim num_relations : Int) (device : Option Device)
    (init : InitConfig D) (bias : Bool) (bias_init : InitConfig D) (activation : String) :
    Except Error (LayerConfig D) :=
  convenience_init E probeConfig input_dim output_dim num_relations device init bias
    bias_init activation

/-! ## The layer behind the binding -/

/-- Modelled from the spec: `getActivationFunction` (declared outside the binding file). An
activation name that is not a known activation is a configuration error; which names are
known, and what they resolve to, is the table `known`. -/
def getActivationFunction {D : Decls} (known : String → Option D.ActivationFunction)
    (name : String) : Except Error D.ActivationFunction :=
  match known name with
  | some a => Except.ok a
  | none => Except.error Error.ConfigurationError

/-- Modelled from the spec: the state of the class `RGCNLayer` (declared in `rgcn_layer.h`,
outside the binding file). `options_`, `num_relations_`, `relation_matrices_`,
`inverse_relation_matrices_` and `self_matrix_` are the members lines 12-16 expose; the
configuration, the bias vector (present exactly when requested) and the device are the rest
of the data model. A matrix is the list of its rows; scalars are taken from a semiring `α`
with exact arithmetic. -/
structure RGCNLayer (D : Decls) (α : Type) where
  config_ : LayerConfig D
  options_ : D.LayerOptions
  num_relations_ : Int
  relation_matrices_ : List (List (List α))
  inverse_relation_matrices_ : List (List (List α))
  self_matrix_ : List (List α)
  bias_ : Option (List α)
  device_ : Device

/-- Modelled from the spec: one draw from a tensor's configured initialization distribution
(the initializers are outside the binding file). Zeros is the deterministic distribution;
every other distribution draws through `rand` from the generator state `g`. -/
def drawValue {D : Decls} {α G : Type} [Zero α] (rand : InitConfig D → G → α × G)
    (c : InitConfig D) (g : G) : α × G :=
  match c.type with
  | InitDistribution.ZEROS => (0, g)
  | _ => rand c g

/-- Reinitialize the entries of a list in place, one after the other, threading the
generator state; the list keeps its length. -/
def redrawList {β G : Type} (f : β → G → β × G) : List β → G → List β × G
  | [], g => ([], g)
  | x :: xs, g =>
    let r := f x g
    let rs := redrawList f xs r.2
    (r.1 :: rs.1, rs.2)

/-- Modelled from the spec: reinitialize a vector in place from its distribution. -/
def redrawVector {D : Decls} {α G : Type} [Zero α] (rand : InitConfig D → G → α × G)
    (c : InitConfig D) (v : List α) (g : G) : List α × G :=
  redrawList (fun _ g1 => drawValue rand c g1) v g

/-- Modelled from the spec: reinitialize a matrix in place from its distribution. -/
def redrawMatrix {D : Decls} {α G : Type} [Zero α] (rand : InitConfig D → G → α × G)
    (c : InitConfig D) (m : List (List α)) (g : G) : List (List α) × G :=
  redrawList (redrawVector rand c) m g

/-- Modelled from the spec: `RGCNLayer::reset` (defined outside the binding file). It
reinitializes every owned parameter tensor in place (all relation matrices, the
inverse-relation matrices, the self matrix, the bias if present), each from its configured
distribution; shapes are preserved and no relation is added or removed. -/
def reset {D : Decls} {α G : Type} [Zero α] (rand : InitConfig D → G → α × G)
    (L : RGCNLayer D α) (g : G) : RGCNLayer D α × G :=
  let rel := redrawList (redrawMatrix rand L.config_.init) L.relation_matrices_ g
  let inv := redrawList (redrawMatrix rand L.config_.init) L.inverse_relation_matrices_ rel.2
  let slf := redrawMatrix rand L.config_.init L.self_matrix_ inv.2
  match L.bias_ with
  | some b =>
    let bs := redrawVector rand L.config_.bias_init b slf.2
    ({ L with relation_matrices_ := rel.1, inverse_relation_matrices_ := inv.1,
              self_matrix_ := slf.1, bias_ := some bs.1 }, bs.2)
  | none =>
    ({ L with relation_matrices_ := rel.1, inverse_relation_matrices_ := inv.1,
              self_matrix_ := slf.1 }, slf.2)

/-- Modelled from the spec: the allocation step of the config-form constructor: one
`[output_dim, input_dim]` matrix per relation in each direction, the self matrix, and the
bias vector of length `output_dim` if requested, on the given device. The spec gives no
behaviour for a negative relation count; no relation matrix is allocated then. -/
def RGCNLayer.allocate {D : Decls} {α : Type} [Zero α]
    (layer_config : LayerConfig D) (num_relations : Int) (device : Device) : RGCNLayer D α :=
  let blank : List (List α) :=
    List.replicate layer_config.output_dim.toNat
      (List.replicate layer_config.input_dim.toNat 0)
  { config_ := layer_config
    options_ := layer_config.options
    num_relations_ := num_relations
    relation_matrices_ := List.replicate num_relations.toNat blank
    inverse_relation_matrices_ := List.replicate num_relations.toNat blank
    self_matrix_ := blank
    bias_ := if layer_config.bias then
        some (List.replicate layer_config.output_dim.toNat 0) else none
    device_ := device }

/-- Modelled from the spec: the config-form constructor of `RGCNLayer` (defined outside the
binding file). It fails with a configuration error if `input_dim` or `output_dim` is
non-positive; otherwise it returns a layer with freshly initialized relation matrices,
inverse-relation matrices and self matrix (and bias vector if requested). -/
def RGCNLayer.new {D : Decls} {α G : Type} [Zero α] (rand : InitConfig D → G → α × G) (g : G)
    (layer_config : LayerConfig D) (num_relations : Int) (device : Device) :
    Except Error (RGCNLayer D α × G) :=
  if layer_config.input_dim ≤ 0 ∨ layer_config.output_dim ≤ 0 then
    Except.error Error.ConfigurationError
  else
    Except.ok (reset rand (RGCNLayer.allocate layer_config num_relations device) g)

/-- Modelled from the spec: the two directions in which an edge of a relation contributes
(part of the dense graph, declared outside the binding file). -/
inductive Direction
  | forward
  | inverse
  deriving DecidableEq, Repr

/-- Modelled from the spec: one (target, source) neighbor pair of a relation and direction
(part of the dense graph, declared outside the binding file). -/
structure Edge where
  relation : Nat
  direction : Direction
  target : Nat
  source : Nat
  deriving DecidableEq, Repr

/-- Modelled from the spec: the dense graph of one forward call (declared outside the binding
file): the target nodes of the batch and, per relation and direction, the (target, source)
neighbor pairs. A source's feature vector is fetched from `inputs`. -/
structure DenseGraph where
  targets : List Nat
  edges : List Edge
  deriving DecidableEq, Repr

/-- Inner product of a matrix row with a feature vector. -/
def dot {α : Type} [Semiring α] (r x : List α) : α :=
  (List.zipWith (fun a b => a * b) r x).sum

/-- Matrix-vector product, the matrix given by its rows. -/
def mulVec {α : Type} [Semiring α] (m : List (List α)) (x : List α) : List α :=
  m.map (fun r => dot r x)

/-- Entrywise sum of two vectors. -/
def vadd {α : Type} [Semiring α] (u v : List α) : List α :=
  List.zipWith (fun a b => a + b) u v

/-- The zero vector of length `n`. -/
def zeroVec {α : Type} [Semiring α] (n : Nat) : List α :=
  List.replicate n 0

/-- The sources of the neighbors of target `t` under relation `r` in direction `d`. -/
def neighborSources (dense_graph : DenseGraph) (r : Nat) (d : Direction) (t : Nat) :
    List Nat :=
  (dense_graph.edges.filter
    (fun e => decide (e.relation = r ∧ e.direction = d ∧ e.target = t))).map Edge.source

/-- Modelled from the spec: one aggregated neighbor contribution. Each neighbor's feature
vector is transformed by the relation's matrix and the results are aggregated by `agg` (the
spec leaves the aggregation function open, mean being an example); aggregation over an empty
neighbor set is the zero vector. -/
def aggregate {α : Type} [Semiring α] (agg : List (List α) → List α) (out : Nat)
    (w : List (List α)) (inputs : Nat → List α) (sources : List Nat) : List α :=
  match sources with
  | [] => zeroVec out
  | s :: ss => agg ((s :: ss).map (fun v => mulVec w (inputs v)))

/-- Modelled from the spec: the sum over the relation types, from relation `r` on, of the
forward-direction and the inverse-direction contribution to target `t`. -/
def relationTerms {α : Type} [Semiring α] (agg : List (List α) → List α) (out : Nat)
    (inputs : Nat → List α) (dense_graph : DenseGraph) (t : Nat) :
    Nat → List (List (List α)) → List (List (List α)) → List α
  | r, w :: ws, v :: vs =>
    vadd
      (vadd (aggregate agg out w inputs (neighborSources dense_graph r Direction.forward t))
        (aggregate agg out v inputs (neighborSources dense_graph r Direction.inverse t)))
      (relationTerms agg out inputs dense_graph t (r + 1) ws vs)
  | _, _, _ => zeroVec out

/-- Modelled from the spec: the output of `forward` for one target node: the node's own
features transformed by the self matrix, plus the relation terms, plus the bias when the
layer has one, passed through the configured activation (`act` applies an activation
identifier to a vector). -/
def forwardNode {D : Decls} {α : Type} [Semiring α]
    (act : D.ActivationFunction → List α → List α) (agg : List (List α) → List α)
    (L : RGCNLayer D α) (inputs : Nat → List α) (dense_graph : DenseGraph) (t : Nat) :
    List α :=
  let sum := vadd (mulVec L.self_matrix_ (inputs t))
    (relationTerms agg L.config_.output_dim.toNat inputs dense_graph t 0
      L.relation_matrices_ L.inverse_relation_matrices_)
  let sum :=
    match L.bias_ with
    | some b => vadd sum b
    | none => sum
  act L.config_.activation sum

/-- Modelled from the spec: `RGCNLayer::forward` (defined outside the binding file). It fails
with a shape-mismatch error if the feature vector of a node of the batch does not have length
`input_dim`, with an out-of-range error if the graph references a relation index
`>= num_relations`, and otherwise maps every target node to its output vector. `train` only
decides whether gradient history is retained, which the values do not show. -/
def forward {D : Decls} {α : Type} [Semiring α]
    (act : D.ActivationFunction → List α → List α) (agg : List (List α) → List α)
    (L : RGCNLayer D α) (inputs : Nat → List α) (dense_graph : DenseGraph) (_train : Bool) :
    Except Error (List (Nat × List α)) :=
  if (dense_graph.targets ++ dense_graph.edges.map Edge.source).any
      (fun v => decide (((inputs v).length : Int) ≠ L.config_.input_dim)) then
    Except.error Error.ShapeMismatchError
  else if dense_graph.edges.any (fun e => decide (L.num_relations_ ≤ (e.relation : Int))) then
    Except.error Error.RelationIndexError
  else
    Except.ok (dense_graph.targets.map (fun t => (t, forwardNode act agg L inputs dense_graph t)))

/-- The operations the binding exposes on a constructed layer: `reset`, `forward`, and a
write to one of the five `def_readwrite` attributes of lines 12-16. -/
inductive Op (D : Decls) (α : Type) where
  | reset
  | forward (inputs : Nat → List α) (dense_graph : DenseGraph) (train : Bool)
  | write_options (v : D.LayerOptions)
  | write_num_relations (v : Int)
  | write_relation_matrices_ (v : List (List (List α)))
  | write_inverse_relation_matrices_ (v : List (List (List α)))
  | write_self_matrix_ (v : List (List α))

/-- The effect of one exposed operation on the layer and the generator state. A
`def_readwrite` setter assigns the member; `forward` computes from the parameters and leaves
the layer as it is; `reset` is the modelled `reset`. -/
def Op.apply {D : Decls} {α G : Type} [Zero α] (rand : InitConfig D → G → α × G) :
    Op D α → RGCNLayer D α × G → RGCNLayer D α × G
  | Op.reset, s => RGCNWrap.reset rand s.1 s.2
  | Op.forward _ _ _, s => s
  | Op.write_options v, s => ({ s.1 with options_ := v }, s.2)
  | Op.write_num_relations v, s => ({ s.1 with num_relations_ := v }, s.2)
  | Op.write_relation_matrices_ v, s => ({ s.1 with relation_matrices_ := v }, s.2)
  | Op.write_inverse_relation_matrices_ v, s =>
    ({ s.1 with inverse_relation_matrices_ := v }, s.2)
  | Op.write_self_matrix_ v, s => ({ s.1 with self_matrix_ := v }, s.2)

/-- A matrix, given by its rows, has shape `[rows, cols]`. -/
def HasShape {α : Type} (rows cols : Int) (m : List (List α)) : Prop :=
  (m.length : Int) = rows ∧ ∀ r ∈ m, (r.length : Int) = cols

/-- The invariants of the data model: both relation-matrix collections have `num_relations`
entries, every matrix has shape `[output_dim, input_dim]`, and a bias vector of length
`output_dim` exists exactly when the configuration asks for a bias. -/
def WellShaped {D : Decls} {α : Type} (L : RGCNLayer D α) : Prop :=
  (L.relation_matrices_.length : Int) = L.num_relations_ ∧
  (L.inverse_relation_matrices_.length : Int) = L.num_relations_ ∧
  (∀ m ∈ L.relation_matrices_, HasShape L.config_.output_dim L.config_.input_dim m) ∧
  (∀ m ∈ L.inverse_relation_matrices_, HasShape L.config_.output_dim L.config_.input_dim m) ∧
  HasShape L.config_.output_dim L.config_.input_dim L.self_matrix_ ∧
  (L.bias_.isSome = L.config_.bias) ∧
  (∀ b, L.bias_ = some b → (b.length : Int) = L.config_.output_dim)

/-- The layer and generator state after `k` further calls of `reset`. -/
def resetN {D : Decls} {α G : Type} [Zero α] (rand : InitConfig D → G → α × G) :
    Nat → RGCNLayer D α × G → RGCNLayer D α × G
  | 0, s => s
  | k + 1, s => resetN rand k (reset rand s.1 s.2)

/-! ## Concrete instances -/

/-- A concrete choice of the black-box types for the worked instances: no payload for the
options, and two activation identifiers, `false` for the identity and `true` for the
rectifier. -/
@[reducible] def D0 : Decls :=
  { LayerOptions := Unit, InitOptions := Unit, OptimizerConfig := Unit,
    ActivationFunction := Bool }

/-- A table of known activation names for the worked instances. -/
def known0 (name : String) : Option D0.ActivationFunction :=
  if name = "none" then some false else if name = "relu" then some true else none

/-- A concrete environment for the worked instances; the default-constructed configuration
is filled with values that every assignment of the convenience constructor overwrites. -/
def E0 : Env D0 :=
  { new_LayerConfig :=
      { type := LayerType.OTHER 0, options := (), input_dim := 7, output_dim := 7,
        init := { type := InitDistribution.OTHER 0, options := none },
        optimizer := some (), bias := true,
        bias_init := { type := InitDistribution.OTHER 0, options := none },
        activation := true }
    new_GNNLayerOptions := ()
    getActivationFunction := getActivationFunction known0 }

/-- The zeros initialization spec, `InitConfig(InitDistribution::ZEROS, nullptr)`. -/
def zeros0 : InitConfig D0 :=
  { type := InitDistribution.ZEROS, options := none }

/-- The Glorot-uniform initialization spec of the worked instances. -/
def glorot0 : InitConfig D0 :=
  { type := InitDistribution.GLOROT_UNIFORM, options := none }

/-- A generator for the worked instances: the state is a counter and a draw returns it. -/
def rand0 (_c : InitConfig D0) (g : Nat) : Int × Nat :=
  (g, g + 1)

/-- How the activation identifiers of the worked instances act on a vector. -/
def act0 (a : D0.ActivationFunction) (v : List Int) : List Int :=
  if a then v.map (fun x => max x 0) else v

/-- An aggregation function for the worked instances: the entrywise sum. -/
def agg0 (vs : List (List Int)) : List Int :=
  match vs with
  | [] => []
  | v :: rest => rest.foldl vadd v

/-- A configuration with `input_dim = 4`, `output_dim = 2`, zeros initialization, no bias and
the identity activation. -/
def cfg0 : LayerConfig D0 :=
  { type := LayerType.GNN, options := (), input_dim := 4, output_dim := 2, init := zeros0,
    optimizer := none, bias := false, bias_init := zeros0, activation := false }

/-- A batch with the target nodes `0` and `1`: node `1` has the neighbor `2` under relation
`0` in the forward direction, node `0` has no neighbor. -/
def graph0 : DenseGraph :=
  { targets := [0, 1],
    edges := [{ relation := 0, direction := Direction.forward, target := 1, source := 2 }] }

/-- The feature vectors of the worked instances: every node has `[1, 1, 1, 1]`. -/
def inputs0 (_v : Nat) : List Int :=
  [1, 1, 1, 1]

/-- The layer `RGCNLayer.new` builds from `cfg0` with one relation on the host. -/
def layer0 : RGCNLayer D0 Int :=
  { config_ := cfg0, options_ := (), num_relations_ := 1,
    relation_matrices_ := [[[0, 0, 0, 0], [0, 0, 0, 0]]],
    inverse_relation_matrices_ := [[[0, 0, 0, 0], [0, 0, 0, 0]]],
    self_matrix_ := [[0, 0, 0, 0], [0, 0, 0, 0]],
    bias_ := none, device_ := Device.ofType DeviceType.kCPU }

/-! ## The convenience constructor -/

section Binding

variable {D : Decls} {Layer : Type}

/-- When the activation name resolves, the lambda calls the layer constructor with the
configuration assembled from its arguments, the relation count and the resolved device. -/
theorem convenience_init_ok (E : Env D)
    (mk : LayerConfig D → Int → Device → Except Error Layer)
    (i o n : Int) (device : Option Device) (init : InitConfig D) (bias : Bool)
    (bias_init : InitConfig D) (activation : String) (a : D.ActivationFunction)
    (h : E.getActivationFunction activation = Except.ok a) :
    convenience_init E mk i o n device init bias bias_init activation =
      mk { type := LayerType.GNN, options := E.new_GNNLayerOptions, input_dim := i,
           output_dim := o, init := init, optimizer := none, bias := bias,
           bias_init := bias_init, activation := a } n
        (match device with
          | some d => d
          | none => Device.ofType DeviceType.kCPU) := by
  unfold convenience_init
  rw [h]
  rfl

/-- When the activation name does not resolve, the lambda ends in that error whatever the
layer constructor is. -/
theorem convenience_init_error (E : Env D)
    (mk : LayerConfig D → Int → Device → Except Error Layer)
    (i o n : Int) (device : Option Device) (init : InitConfig D) (bias : Bool)
    (bias_init : InitConfig D) (activation : String) (e : Error)
    (h : E.getActivationFunction activation = Except.error e) :
    convenience_init E mk i o n device init bias bias_init activation = Except.error e := by
  unfold convenience_init
  rw [h]
  rfl

/-- The configuration the lambda builds, in closed form. -/
theorem builtConfig_eq (E : Env D) (i o n : Int) (device : Option Device)
    (init : InitConfig D) (bias : Bool) (bias_init : InitConfig D) (activation : String) :
    builtConfig E i o n device init bias bias_init activation =
      (E.getActivationFunction activation).map (fun a =>
        { type := LayerType.GNN, options := E.new_GNNLayerOptions, input_dim := i,
          output_dim := o, init := init, optimizer := none, bias := bias,
          bias_init := bias_init, activation := a }) := by
  unfold builtConfig
  cases h : E.getActivationFunction activation with
  | error e =>
    rw [convenience_init_error E probeConfig i o n device init bias bias_init activation e h]
    rfl
  | ok a =>
    rw [convenience_init_ok E probeConfig i o n device init bias bias_init activation a h]
    rfl

/-- The lambda is the layer constructor run on the configuration it builds. -/
theorem convenience_init_eq_bind (E : Env D)
    (mk : LayerConfig D → Int → Device → Except Error Layer)
    (i o n : Int) (device : Option Device) (init : InitConfig D) (bias : Bool)
    (bias_init : InitConfig D) (activation : String) (dev : Option Device) :
    convenience_init E mk i o n device init bias bias_init activation =
      (builtConfig E i o n dev init bias bias_init activation).bind
        (fun c => mk c n
          (match device with
            | some d => d
            | none => Device.ofType DeviceType.kCPU)) := by
  rw [builtConfig_eq]
  cases h : E.getActivationFunction activation with
  | error e =>
    rw [convenience_init_error E mk i o n device init bias bias_init activation e h]
    rfl
  | ok a =>
    rw [convenience_init_ok E mk i o n device init bias bias_init activation a h]
    rfl

/-- C1. For every argument tuple the configuration the convenience constructor builds has
the layer kind `GNN` and no optimizer, the constructor's result is the config-form
constructor applied to that configuration, the same relation count and the resolved device,
and a configuration is built whenever the activation name resolves. -/
theorem C1_convenience_builds_gnn_config_and_delegates (E : Env D)
    (mk : LayerConfig D → Int → Device → Except Error Layer)
    (input_dim output_dim num_relations : Int) (device : Option Device)
    (init : InitConfig D) (bias : Bool) (bias_init : InitConfig D) (activation : String) :
    (∀ c, builtConfig E input_dim output_dim num_relations device init bias bias_init
        activation = Except.ok c → c.type = LayerType.GNN ∧ c.optimizer = none) ∧
    convenience_init E mk input_dim output_dim num_relations device init bias bias_init
        activation =
      (builtConfig E input_dim output_dim num_relations device init bias bias_init
        activation).bind
        (fun c => mk c num_relations
          (match device with
            | some d => d
            | none => Device.ofType DeviceType.kCPU)) ∧
    (∀ a, E.getActivationFunction activation = Except.ok a →
      ∃ c, builtConfig E input_dim output_dim num_relations device init bias bias_init
        activation = Except.ok c) := by
  refine ⟨?_, convenience_init_eq_bind E mk _ _ _ _ _ _ _ _ _, ?_⟩
  · intro c hc
    rw [builtConfig_eq] at hc
    cases h : E.getActivationFunction activation with
    | error e =>
      rw [h] at hc
      cases hc
    | ok a =>
      rw [h] at hc
      simp only [Except.map, Except.ok.injEq] at hc
      subst hc
      exact ⟨rfl, rfl⟩
  · intro a h
    rw [builtConfig_eq, h]
    exact ⟨_, rfl⟩

/-- C1 at a concrete call: input_dim 4, output_dim 2, three relations, no device, zeros
initialization, no bias, activation "none". -/
theorem C1_witness :
    (∀ c, builtConfig E0 4 2 3 none zeros0 false zeros0 "none" = Except.ok c →
        c.type = LayerType.GNN ∧ c.optimizer = none) ∧
    (∃ c, builtConfig E0 4 2 3 none zeros0 false zeros0 "none" = Except.ok c) :=
  ⟨(C1_convenience_builds_gnn_config_and_delegates E0 probeCall 4 2 3 none zeros0 false
      zeros0 "none").1,
   (C1_convenience_builds_gnn_config_and_delegates E0 probeCall 4 2 3 none zeros0 false
      zeros0 "none").2.2 false (by rfl)⟩

/-- C2. In the convenience constructor the device handed to the layer constructor is the
host device when the device argument is absent and is the supplied device when it is
present; omitting the device is the same call as passing the host device. -/
theorem C2_device_defaults_to_host (E : Env D)
    (mk : LayerConfig D → Int → Device → Except Error Layer)
    (input_dim output_dim num_relations : Int)
    (init : InitConfig D) (bias : Bool) (bias_init : InitConfig D) (activation : String) :
    convenience_init E mk input_dim output_dim num_relations none init bias bias_init
        activation =
      (builtConfig E input_dim output_dim num_relations none init bias bias_init
        activation).bind (fun c => mk c num_relations (Device.ofType DeviceType.kCPU)) ∧
    (∀ d : Device,
      convenience_init E mk input_dim output_dim num_relations (some d) init bias bias_init
          activation =
        (builtConfig E input_dim output_dim num_relations none init bias bias_init
          activation).bind (fun c => mk c num_relations d)) ∧
    (∀ d : Device,
      convenience_init E probeCall input_dim output_dim num_relations (some d) init bias
          bias_init activation =
        (E.getActivationFunction activation).map (fun _ => (num_relations, d))) ∧
    convenience_init E probeCall input_dim output_dim num_relations none init bias
        bias_init activation =
      (E.getActivationFunction activation).map
        (fun _ => (num_relations, Device.ofType DeviceType.kCPU)) ∧
    convenience_init E mk input_dim output_dim num_relations none init bias bias_init
        activation =
      convenience_init E mk input_dim output_dim num_relations
        (some (Device.ofType DeviceType.kCPU)) init bias bias_init activation := by
  refine ⟨convenience_init_eq_bind E mk _ _ _ none _ _ _ _ none,
    fun d => convenience_init_eq_bind E mk _ _ _ (some d) _ _ _ _ none, ?_, ?_, ?_⟩
  · intro d
    cases h : E.getActivationFunction activation with
    | error e => rw [convenience_init_error E probeCall _ _ _ _ _ _ _ _ e h]; rfl
    | ok a => rw [convenience_init_ok E probeCall _ _ _ _ _ _ _ _ a h]; rfl
  · cases h : E.getActivationFunction activation with
    | error e => rw [convenience_init_error E probeCall _ _ _ _ _ _ _ _ e h]; rfl
    | ok a => rw [convenience_init_ok E probeCall _ _ _ _ _ _ _ _ a h]; rfl
  · rw [convenience_init_eq_bind E mk _ _ _ none _ _ _ _ none,
      convenience_init_eq_bind E mk _ _ _ (some (Device.ofType DeviceType.kCPU)) _ _ _ _ none]

/-- C3. Calling the convenience constructor with only input_dim, output_dim and
num_relations is the call with device absent, init Glorot-uniform without parameters,
bias false, bias_init zeros without parameters and activation "none"; the configuration it
builds has bias false, weight init Glorot-uniform, bias init zeros and the activation the
name "none" resolves to. -/
theorem C3_convenience_defaults (E : Env D)
    (mk : LayerConfig D → Int → Device → Except Error Layer)
    (input_dim output_dim num_relations : Int) :
    py_convenience_init E mk (some input_dim) (some output_dim) (some num_relations)
        none none none none none =
      py_convenience_init E mk (some input_dim) (some output_dim) (some num_relations)
        (some none) (some { type := InitDistribution.GLOROT_UNIFORM, options := none })
        (some false) (some { type := InitDistribution.ZEROS, options := none })
        (some "none") ∧
    py_convenience_init E mk (some input_dim) (some output_dim) (some num_relations)
        none none none none none =
      convenience_init E mk input_dim output_dim num_relations none
        { type := InitDistribution.GLOROT_UNIFORM, options := none } false
        { type := InitDistribution.ZEROS, options := none } "none" ∧
    py_convenience_init E probeConfig (some input_dim) (some output_dim)
        (some num_relations) none none none none none =
      (E.getActivationFunction "none").map (fun a =>
        { type := LayerType.GNN, options := E.new_GNNLayerOptions, input_dim := input_dim,
          output_dim := output_dim,
          init := { type := InitDistribution.GLOROT_UNIFORM, options := none },
          optimizer := none, bias := false,
          bias_init := { type := InitDistribution.ZEROS, options := none },
          activation := a }) := by
  refine ⟨rfl, rfl, ?_⟩
  exact builtConfig_eq E input_dim output_dim num_relations none
    { type := InitDistribution.GLOROT_UNIFORM, options := none } false
    { type := InitDistribution.ZEROS, options := none } "none"

/-- C8. The train argument of forward defaults to true: a call that leaves it out is the
call with train = true, which is the underlying forward at train = true; a call that leaves
out inputs or dense_graph is rejected. -/
theorem C8_forward_train_defaults_to_true {Inputs Graph Output : Type}
    (fwd : Layer → Inputs → Graph → Bool → Except Error Output)
    (self : Layer) (inputs : Inputs) (dense_graph : Graph) :
    py_forward fwd self (some inputs) (some dense_graph) none =
      py_forward fwd self (some inputs) (some dense_graph) (some true) ∧
    py_forward fwd self (some inputs) (some dense_graph) none =
      fwd self inputs dense_graph true ∧
    (∀ train : Bool, py_forward fwd self (some inputs) (some dense_graph) (some train) =
      fwd self inputs dense_graph train) ∧
    (∀ g train, py_forward fwd self none g train = Except.error Error.TypeError) ∧
    (∀ i train, py_forward fwd self i none train = Except.error Error.TypeError) := by
  refine ⟨rfl, rfl, fun _ => rfl, fun _ _ => rfl, ?_⟩
  intro i train
  cases i <;> rfl

/-- C10. The configuration the convenience constructor builds carries input_dim,
output_dim, init, bias and bias_init verbatim, has the default-constructed GNN options,
takes nothing from the default-constructed LayerConfig, and does not depend on the device
or num_relations arguments. -/
theorem C10_built_config_is_verbatim (E : Env D)
    (input_dim output_dim num_relations : Int) (device : Option Device)
    (init : InitConfig D) (bias : Bool) (bias_init : InitConfig D) (activation : String) :
    builtConfig E input_dim output_dim num_relations device init bias bias_init activation =
      (E.getActivationFunction activation).map (fun a =>
        { type := LayerType.GNN, options := E.new_GNNLayerOptions, input_dim := input_dim,
          output_dim := output_dim, init := init, optimizer := none, bias := bias,
          bias_init := bias_init, activation := a }) ∧
    (∀ (blank : LayerConfig D),
      builtConfig { E with new_LayerConfig := blank } input_dim output_dim num_relations
          device init bias bias_init activation =
        builtConfig E input_dim output_dim num_relations device init bias bias_init
          activation) ∧
    (∀ (num_relations2 : Int) (device2 : Option Device),
      builtConfig E input_dim output_dim num_relations2 device2 init bias bias_init
          activation =
        builtConfig E input_dim output_dim num_relations device init bias bias_init
          activation) := by
  refine ⟨builtConfig_eq E _ _ _ _ _ _ _ _, ?_, ?_⟩
  · intro blank
    rw [builtConfig_eq, builtConfig_eq]
  · intro n2 d2
    rw [builtConfig_eq, builtConfig_eq]

end Binding

/-! ## Construction and reset of the modelled layer -/

section Layer

variable {D : Decls} {α G : Type}

/-- Reinitializing a list in place keeps its length. -/
theorem redrawList_length {β : Type} (f : β → G → β × G) (xs : List β) (g : G) :
    (redrawList f xs g).1.length = xs.length := by
  induction xs generalizing g with
  | nil => rfl
  | cons x xs ih => simp [redrawList, ih]

/-- A property every entry has, and that reinitializing an entry keeps, holds for every
entry of the reinitialized list. -/
theorem redrawList_forall {β : Type} (P : β → Prop) (f : β → G → β × G)
    (hf : ∀ x g, P x → P (f x g).1) (xs : List β) (g : G) (h : ∀ x ∈ xs, P x) :
    ∀ y ∈ (redrawList f xs g).1, P y := by
  induction xs generalizing g with
  | nil => intro y hy; simp [redrawList] at hy
  | cons x xs ih =>
    intro y hy
    simp only [redrawList, List.mem_cons] at hy
    rcases hy with rfl | hy
    · exact hf x g (h x (List.mem_cons_self _ _))
    · exact ih _ (fun z hz => h z (List.mem_cons_of_mem _ hz)) y hy

/-- Reinitializing a vector keeps its length. -/
theorem redrawVector_length [Zero α] (rand : InitConfig D → G → α × G) (c : InitConfig D)
    (v : List α) (g : G) : (redrawVector rand c v g).1.length = v.length :=
  redrawList_length _ v g

/-- Reinitializing a matrix keeps its shape. -/
theorem redrawMatrix_hasShape [Zero α] (rand : InitConfig D → G → α × G) (c : InitConfig D)
    (rows cols : Int) (m : List (List α)) (g : G) (h : HasShape rows cols m) :
    HasShape rows cols (redrawMatrix rand c m g).1 := by
  refine ⟨?_, ?_⟩
  · unfold redrawMatrix
    rw [redrawList_length]
    exact h.1
  · exact redrawList_forall (fun r => (r.length : Int) = cols) (redrawVector rand c)
      (fun x g1 hx => by
        show (((redrawVector rand c x g1).1.length : Nat) : Int) = cols
        rw [redrawVector_length]; exact hx) m g h.2

theorem reset_config_ [Zero α] (rand : InitConfig D → G → α × G) (L : RGCNLayer D α) (g : G) :
    (reset rand L g).1.config_ = L.config_ := by
  unfold reset
  cases L.bias_ <;> rfl

theorem reset_num_relations_ [Zero α] (rand : InitConfig D → G → α × G) (L : RGCNLayer D α)
    (g : G) : (reset rand L g).1.num_relations_ = L.num_relations_ := by
  unfold reset
  cases L.bias_ <;> rfl

theorem reset_relation_matrices_ [Zero α] (rand : InitConfig D → G → α × G)
    (L : RGCNLayer D α) (g : G) :
    (reset rand L g).1.relation_matrices_ =
      (redrawList (redrawMatrix rand L.config_.init) L.relation_matrices_ g).1 := by
  unfold reset
  cases L.bias_ <;> rfl

theorem reset_inverse_relation_matrices_ [Zero α] (rand : InitConfig D → G → α × G)
    (L : RGCNLayer D α) (g : G) :
    (reset rand L g).1.inverse_relation_matrices_ =
      (redrawList (redrawMatrix rand L.config_.init) L.inverse_relation_matrices_
        (redrawList (redrawMatrix rand L.config_.init) L.relation_matrices_ g).2).1 := by
  unfold reset
  cases L.bias_ <;> rfl

theorem reset_self_matrix_ [Zero α] (rand : InitConfig D → G → α × G)
    (L : RGCNLayer D α) (g : G) :
    (reset rand L g).1.self_matrix_ =
      (redrawMatrix rand L.config_.init L.self_matrix_
        (redrawList (redrawMatrix rand L.config_.init) L.inverse_relation_matrices_
          (redrawList (redrawMatrix rand L.config_.init) L.relation_matrices_ g).2).2).1 := by
  unfold reset
  cases L.bias_ <;> rfl

theorem reset_bias_ [Zero α] (rand : InitConfig D → G → α × G)
    (L : RGCNLayer D α) (g : G) :
    (reset rand L g).1.bias_ =
      L.bias_.map (fun b => (redrawVector rand L.config_.bias_init b
        (redrawMatrix rand L.config_.init L.self_matrix_
          (redrawList (redrawMatrix rand L.config_.init) L.inverse_relation_matrices_
            (redrawList (redrawMatrix rand L.config_.init)
              L.relation_matrices_ g).2).2).2).1) := by
  unfold reset
  cases L.bias_ <;> rfl

/-- The modelled reset keeps the relation count and the number of entries of both
relation-matrix collections. -/
theorem reset_counts [Zero α] (rand : InitConfig D → G → α × G) (L : RGCNLayer D α) (g : G) :
    (reset rand L g).1.num_relations_ = L.num_relations_ ∧
    (reset rand L g).1.relation_matrices_.length = L.relation_matrices_.length ∧
    (reset rand L g).1.inverse_relation_matrices_.length =
      L.inverse_relation_matrices_.length := by
  refine ⟨reset_num_relations_ rand L g, ?_, ?_⟩
  · rw [reset_relation_matrices_, redrawList_length]
  · rw [reset_inverse_relation_matrices_, redrawList_length]

/-- The modelled reset keeps the invariants of the data model. -/
theorem reset_wellShaped [Zero α] (rand : InitConfig D → G → α × G) (L : RGCNLayer D α)
    (g : G) (h : WellShaped L) : WellShaped (reset rand L g).1 := by
  obtain ⟨h1, h2, h3, h4, h5, h6, h7⟩ := h
  obtain ⟨c1, c2, c3⟩ := reset_counts rand L g
  have hs := reset_self_matrix_ rand L g
  have hb := reset_bias_ rand L g
  unfold WellShaped
  rw [reset_config_, c1, c2, c3]
  refine ⟨h1, h2, ?_, ?_, ?_, ?_, ?_⟩
  · rw [reset_relation_matrices_]
    exact redrawList_forall _ _
      (fun m g1 hm => redrawMatrix_hasShape rand _ _ _ m g1 hm) _ _ h3
  · rw [reset_inverse_relation_matrices_]
    exact redrawList_forall _ _
      (fun m g1 hm => redrawMatrix_hasShape rand _ _ _ m g1 hm) _ _ h4
  · rw [hs]
    exact redrawMatrix_hasShape rand _ _ _ _ _ h5
  · rw [hb, ← h6]
    cases L.bias_ <;> rfl
  · intro b hbb
    rw [hb] at hbb
    cases hL : L.bias_ with
    | none => rw [hL] at hbb; cases hbb
    | some b0 =>
      rw [hL] at hbb
      simp only [Option.map_some', Option.some.injEq] at hbb
      subst hbb
      rw [redrawVector_length]
      exact h7 b0 hL

/-- The invariants of the data model hold after any number of calls of reset. -/
theorem resetN_wellShaped [Zero α] (rand : InitConfig D → G → α × G) (k : Nat)
    (s : RGCNLayer D α × G) (h : WellShaped s.1) : WellShaped (resetN rand k s).1 := by
  induction k generalizing s with
  | zero => exact h
  | succ k ih => exact ih _ (reset_wellShaped rand s.1 s.2 h)

theorem resetN_config_ [Zero α] (rand : InitConfig D → G → α × G) (k : Nat)
    (s : RGCNLayer D α × G) : (resetN rand k s).1.config_ = s.1.config_ := by
  induction k generalizing s with
  | zero => rfl
  | succ k ih => exact (ih _).trans (reset_config_ rand s.1 s.2)

theorem resetN_num_relations_ [Zero α] (rand : InitConfig D → G → α × G) (k : Nat)
    (s : RGCNLayer D α × G) : (resetN rand k s).1.num_relations_ = s.1.num_relations_ := by
  induction k generalizing s with
  | zero => rfl
  | succ k ih => exact (ih _).trans (reset_num_relations_ rand s.1 s.2)

/-- The modelled constructor rejects a non-positive dimension. -/
theorem new_error [Zero α] (rand : InitConfig D → G → α × G) (g : G) (cfg : LayerConfig D)
    (n : Int) (dev : Device) (h : cfg.input_dim ≤ 0 ∨ cfg.output_dim ≤ 0) :
    (RGCNLayer.new rand g cfg n dev : Except Error (RGCNLayer D α × G)) =
      Except.error Error.ConfigurationError := by
  unfold RGCNLayer.new
  rw [if_pos h]

/-- On a valid configuration and relation count the modelled constructor returns a layer
that carries the configuration, the relation count and the device and satisfies the
invariants of the data model. -/
theorem new_ok [Zero α] (rand : InitConfig D → G → α × G) (g : G) (cfg : LayerConfig D)
    (n : Int) (dev : Device) (hin : 0 < cfg.input_dim) (hout : 0 < cfg.output_dim)
    (hn : 0 ≤ n) :
    ∃ (L : RGCNLayer D α) (g1 : G), RGCNLayer.new rand g cfg n dev = Except.ok (L, g1) ∧
      L.config_ = cfg ∧ L.num_relations_ = n ∧ L.device_ = dev ∧ WellShaped L := by
  have hne : ¬ (cfg.input_dim ≤ 0 ∨ cfg.output_dim ≤ 0) := by omega
  have hblank : HasShape cfg.output_dim cfg.input_dim
      (List.replicate cfg.output_dim.toNat (List.replicate cfg.input_dim.toNat (0 : α))) := by
    refine ⟨?_, ?_⟩
    · rw [List.length_replicate]; omega
    · intro r hr
      rw [List.eq_of_mem_replicate hr, List.length_replicate]; omega
  have hkey : (RGCNLayer.new rand g cfg n dev : Except Error (RGCNLayer D α × G)) =
      Except.ok ((reset rand (RGCNLayer.allocate cfg n dev) g).1,
        (reset rand (RGCNLayer.allocate cfg n dev) g).2) := by
    unfold RGCNLayer.new
    rw [if_neg hne]
  refine ⟨_, _, hkey, ?_, ?_, ?_, ?_⟩
  · rw [reset_config_]; rfl
  · rw [reset_num_relations_]; rfl
  · unfold reset
    cases (RGCNLayer.allocate cfg n dev : RGCNLayer D α).bias_ <;> rfl
  · apply reset_wellShaped
    refine ⟨?_, ?_, ?_, ?_, hblank, ?_, ?_⟩
    · simp only [RGCNLayer.allocate, List.length_replicate]; omega
    · simp only [RGCNLayer.allocate, List.length_replicate]; omega
    · intro m hm
      rw [List.eq_of_mem_replicate hm]; exact hblank
    · intro m hm
      rw [List.eq_of_mem_replicate hm]; exact hblank
    · simp only [RGCNLayer.allocate]
      cases cfg.bias <;> rfl
    · intro b hb
      show (b.length : Int) = cfg.output_dim
      simp only [RGCNLayer.allocate] at hb
      cases hc : cfg.bias with
      | false => simp [hc] at hb
      | true =>
        simp only [hc, if_true, Option.some.injEq] at hb
        subst hb
        rw [List.length_replicate]; omega

end Layer

/-! ## The claims on construction, reset and the exposed attributes -/

section LayerClaims

variable {D : Decls} {α G : Type}

/-- The registered convenience constructor, called with the three required arguments, is the
lambda at the supplied values, an absent one replaced by its registered default. -/
theorem py_convenience_init_eq {Layer : Type} (E : Env D)
    (mk : LayerConfig D → Int → Device → Except Error Layer) (i o n : Int)
    (device : Option (Option Device)) (init : Option (InitConfig D)) (bias : Option Bool)
    (bias_init : Option (InitConfig D)) (activation : Option String) :
    py_convenience_init E mk (some i) (some o) (some n) device init bias bias_init
        activation =
      convenience_init E mk i o n (device.getD none)
        (init.getD { type := InitDistribution.GLOROT_UNIFORM, options := none })
        (bias.getD false)
        (bias_init.getD { type := InitDistribution.ZEROS, options := none })
        (activation.getD "none") := by
  cases device <;> cases init <;> cases bias <;> cases bias_init <;> cases activation <;> rfl

/-- With the modelled constructor and the modelled activation lookup, the lambda ends in a
configuration error on a non-positive dimension. -/
theorem convenience_init_nonpositive [Zero α] (rand : InitConfig D → G → α × G) (g : G)
    (known : String → Option D.ActivationFunction) (E : Env D) (i o n : Int)
    (device : Option Device) (init : InitConfig D) (bias : Bool) (bias_init : InitConfig D)
    (activation : String) (h : i ≤ 0 ∨ o ≤ 0) :
    (convenience_init { E with getActivationFunction := getActivationFunction known }
        (RGCNLayer.new rand g) i o n device init bias bias_init activation :
        Except Error (RGCNLayer D α × G)) =
      Except.error Error.ConfigurationError := by
  cases hk : known activation with
  | none =>
    apply convenience_init_error
    show getActivationFunction known activation = _
    unfold getActivationFunction
    rw [hk]
  | some a =>
    rw [convenience_init_ok _ _ i o n device init bias bias_init activation a]
    · exact new_error rand g _ n _ h
    · show getActivationFunction known activation = _
      unfold getActivationFunction
      rw [hk]

/-- C4. Constructing a layer fails with a configuration error whenever input_dim or
output_dim is non-positive: for the config-form constructor, called directly or through its
binding, and for the convenience constructor, called as the lambda or through its binding
with any choice of the optional arguments. The result is an error, so no layer is
produced. -/
theorem C4_nonpositive_dimension_is_configuration_error [Zero α]
    (rand : InitConfig D → G → α × G) (g : G)
    (known : String → Option D.ActivationFunction) (E : Env D)
    (input_dim output_dim num_relations : Int)
    (h : input_dim ≤ 0 ∨ output_dim ≤ 0) :
    (∀ (layer_config : LayerConfig D) (device : Device),
      layer_config.input_dim = input_dim → layer_config.output_dim = output_dim →
      (RGCNLayer.new rand g layer_config num_relations device :
          Except Error (RGCNLayer D α × G)) = Except.error Error.ConfigurationError ∧
      (py_config_init (RGCNLayer.new rand g) (some layer_config) (some num_relations)
          (some device) : Except Error (RGCNLayer D α × G)) =
        Except.error Error.ConfigurationError) ∧
    (∀ (device : Option Device) (init : InitConfig D) (bias : Bool)
        (bias_init : InitConfig D) (activation : String),
      (convenience_init { E with getActivationFunction := getActivationFunction known }
          (RGCNLayer.new rand g) input_dim output_dim num_relations device init bias
          bias_init activation : Except Error (RGCNLayer D α × G)) =
        Except.error Error.ConfigurationError) ∧
    (∀ (device : Option (Option Device)) (init : Option (InitConfig D)) (bias : Option Bool)
        (bias_init : Option (InitConfig D)) (activation : Option String),
      (py_convenience_init { E with getActivationFunction := getActivationFunction known }
          (RGCNLayer.new rand g) (some input_dim) (some output_dim) (some num_relations)
          device init bias bias_init activation : Except Error (RGCNLayer D α × G)) =
        Except.error Error.ConfigurationError) := by
  refine ⟨?_, ?_, ?_⟩
  · intro cfg dev hi ho
    have hc : cfg.input_dim ≤ 0 ∨ cfg.output_dim ≤ 0 := by rw [hi, ho]; exact h
    exact ⟨new_error rand g cfg _ dev hc, new_error rand g cfg _ dev hc⟩
  · intro device init bias bias_init activation
    exact convenience_init_nonpositive rand g known E _ _ _ _ _ _ _ _ h
  · intro device init bias bias_init activation
    rw [py_convenience_init_eq]
    exact convenience_init_nonpositive rand g known E _ _ _ _ _ _ _ _ h

/-- C4 at input_dim = 0: the config-form constructor on a configuration with input_dim 0
and the convenience constructor called with input_dim 0 both end in a configuration
error. -/
theorem C4_witness :
    ((0 : Int) ≤ 0 ∨ (2 : Int) ≤ 0) ∧
    RGCNLayer.new rand0 0 { cfg0 with input_dim := 0 } 1 (Device.ofType DeviceType.kCPU) =
      Except.error Error.ConfigurationError ∧
    py_convenience_init { E0 with getActivationFunction := getActivationFunction known0 }
      (RGCNLayer.new rand0 0) (some 0) (some 2) (some 1) none none none none none =
      Except.error Error.ConfigurationError :=
  ⟨Or.inl (le_refl _),
   ((C4_nonpositive_dimension_is_configuration_error rand0 0 known0 E0 0 2 1
      (Or.inl (le_refl _))).1 { cfg0 with input_dim := 0 } (Device.ofType DeviceType.kCPU)
      rfl rfl).1,
   (C4_nonpositive_dimension_is_configuration_error rand0 0 known0 E0 0 2 1
      (Or.inl (le_refl _))).2.2 none none none none none⟩

/-- C9. With an activation name that is not a known activation the convenience constructor
ends in a configuration error, whatever the config-form constructor is (also one that
always succeeds): the name is resolved before the constructor is reached, and no
configuration is completed. -/
theorem C9_unknown_activation_fails_before_construction {Layer : Type}
    (known : String → Option D.ActivationFunction) (E : Env D)
    (mk : LayerConfig D → Int → Device → Except Error Layer)
    (input_dim output_dim num_relations : Int) (device : Option Device)
    (init : InitConfig D) (bias : Bool) (bias_init : InitConfig D) (activation : String)
    (h : known activation = none) :
    convenience_init { E with getActivationFunction := getActivationFunction known } mk
        input_dim output_dim num_relations device init bias bias_init activation =
      Except.error Error.ConfigurationError ∧
    builtConfig { E with getActivationFunction := getActivationFunction known }
        input_dim output_dim num_relations device init bias bias_init activation =
      Except.error Error.ConfigurationError := by
  have hg : ({ E with getActivationFunction := getActivationFunction known } :
      Env D).getActivationFunction activation = Except.error Error.ConfigurationError := by
    show getActivationFunction known activation = _
    unfold getActivationFunction
    rw [h]
  exact ⟨convenience_init_error _ mk _ _ _ _ _ _ _ _ _ hg,
    convenience_init_error _ probeConfig _ _ _ _ _ _ _ _ _ hg⟩

/-- C9 at the unknown name "tanh", with a layer constructor that always succeeds. -/
theorem C9_witness :
    known0 "tanh" = none ∧
    convenience_init { E0 with getActivationFunction := getActivationFunction known0 }
      (fun _ _ _ => Except.ok ()) 4 2 1 none glorot0 false zeros0 "tanh" =
      Except.error Error.ConfigurationError :=
  ⟨by decide,
   (C9_unknown_activation_fails_before_construction known0 E0 (fun _ _ _ => Except.ok ())
      4 2 1 none glorot0 false zeros0 "tanh" (by decide)).1⟩

/-- C5 fails for the attribute writes: on the layer constructed from `cfg0` with one
relation, writing 2 to `num_relations` changes the relation count, and writing the empty
collection to `relation_matrices_` changes the number of relation matrices. -/
theorem C5_counterexample :
    RGCNLayer.new rand0 0 cfg0 1 (Device.ofType DeviceType.kCPU) = Except.ok (layer0, 0) ∧
    (Op.apply rand0 (Op.write_num_relations 2) (layer0, 0)).1.num_relations_ ≠
      layer0.num_relations_ ∧
    (Op.apply rand0 (Op.write_relation_matrices_ []) (layer0, 0)).1.relation_matrices_.length ≠
      layer0.relation_matrices_.length := by
  refine ⟨rfl, ?_, ?_⟩
  · show (2 : Int) ≠ 1
    decide
  · show (0 : Nat) ≠ 1
    decide

/-- C5, amended. reset, forward and a write to options or self_matrix_ leave the relation
count and the number of entries of both relation-matrix collections unchanged; a write to
num_relations, relation_matrices_ or inverse_relation_matrices_ stores the written value in
that attribute and leaves the other two of these unchanged. -/
theorem C5_only_attribute_writes_change_relation_count [Zero α]
    (rand : InitConfig D → G → α × G) (s : RGCNLayer D α × G) :
    ((Op.apply rand Op.reset s).1.num_relations_ = s.1.num_relations_ ∧
      (Op.apply rand Op.reset s).1.relation_matrices_.length =
        s.1.relation_matrices_.length ∧
      (Op.apply rand Op.reset s).1.inverse_relation_matrices_.length =
        s.1.inverse_relation_matrices_.length) ∧
    (∀ inputs dense_graph train,
      Op.apply rand (Op.forward inputs dense_graph train) s = s) ∧
    (∀ v, (Op.apply rand (Op.write_options v) s).1.num_relations_ = s.1.num_relations_ ∧
      (Op.apply rand (Op.write_options v) s).1.relation_matrices_ =
        s.1.relation_matrices_ ∧
      (Op.apply rand (Op.write_options v) s).1.inverse_relation_matrices_ =
        s.1.inverse_relation_matrices_) ∧
    (∀ v, (Op.apply rand (Op.write_self_matrix_ v) s).1.num_relations_ = s.1.num_relations_ ∧
      (Op.apply rand (Op.write_self_matrix_ v) s).1.relation_matrices_ =
        s.1.relation_matrices_ ∧
      (Op.apply rand (Op.write_self_matrix_ v) s).1.inverse_relation_matrices_ =
        s.1.inverse_relation_matrices_) ∧
    (∀ v, (Op.apply rand (Op.write_num_relations v) s).1.num_relations_ = v ∧
      (Op.apply rand (Op.write_num_relations v) s).1.relation_matrices_ =
        s.1.relation_matrices_ ∧
      (Op.apply rand (Op.write_num_relations v) s).1.inverse_relation_matrices_ =
        s.1.inverse_relation_matrices_) ∧
    (∀ v, (Op.apply rand (Op.write_relation_matrices_ v) s).1.num_relations_ =
        s.1.num_relations_ ∧
      (Op.apply rand (Op.write_relation_matrices_ v) s).1.relation_matrices_ = v ∧
      (Op.apply rand (Op.write_relation_matrices_ v) s).1.inverse_relation_matrices_ =
        s.1.inverse_relation_matrices_) ∧
    (∀ v, (Op.apply rand (Op.write_inverse_relation_matrices_ v) s).1.num_relations_ =
        s.1.num_relations_ ∧
      (Op.apply rand (Op.write_inverse_relation_matrices_ v) s).1.relation_matrices_ =
        s.1.relation_matrices_ ∧
      (Op.apply rand (Op.write_inverse_relation_matrices_ v) s).1.inverse_relation_matrices_ =
        v) := by
  refine ⟨reset_counts rand s.1 s.2, fun _ _ _ => rfl, fun _ => ⟨rfl, rfl, rfl⟩,
    fun _ => ⟨rfl, rfl, rfl⟩, fun _ => ⟨rfl, rfl, rfl⟩, fun _ => ⟨rfl, rfl, rfl⟩,
    fun _ => ⟨rfl, rfl, rfl⟩⟩

/-- C6. For every configuration with positive input_dim and output_dim and every
non-negative relation count, construction succeeds, and after construction and after any
number of calls of reset both relation-matrix collections have exactly num_relations
entries and every relation, inverse-relation and self matrix has shape
[output_dim, input_dim]. -/
theorem C6_counts_and_shapes_after_construction_and_reset [Zero α]
    (rand : InitConfig D → G → α × G) (g : G) (layer_config : LayerConfig D)
    (num_relations : Int) (device : Device)
    (hin : 0 < layer_config.input_dim) (hout : 0 < layer_config.output_dim)
    (hn : 0 ≤ num_relations) :
    ∃ (L : RGCNLayer D α) (g1 : G),
      RGCNLayer.new rand g layer_config num_relations device = Except.ok (L, g1) ∧
      ∀ k : Nat,
        ((resetN rand k (L, g1)).1.relation_matrices_.length : Int) = num_relations ∧
        ((resetN rand k (L, g1)).1.inverse_relation_matrices_.length : Int) =
          num_relations ∧
        (∀ m ∈ (resetN rand k (L, g1)).1.relation_matrices_,
          HasShape layer_config.output_dim layer_config.input_dim m) ∧
        (∀ m ∈ (resetN rand k (L, g1)).1.inverse_relation_matrices_,
          HasShape layer_config.output_dim layer_config.input_dim m) ∧
        HasShape layer_config.output_dim layer_config.input_dim
          (resetN rand k (L, g1)).1.self_matrix_ := by
  obtain ⟨L, g1, hL, hc, hr, _, hw⟩ := new_ok rand g layer_config num_relations device hin hout hn
  refine ⟨L, g1, hL, ?_⟩
  intro k
  have hk := resetN_wellShaped rand k (L, g1) hw
  have hkc := resetN_config_ rand k (L, g1)
  have hkn := resetN_num_relations_ rand k (L, g1)
  obtain ⟨h1, h2, h3, h4, h5, _, _⟩ := hk
  rw [hkc] at h3 h4 h5
  rw [hkn] at h1 h2
  simp only at h1 h2 h3 h4 h5
  rw [hc] at h3 h4 h5
  rw [hr] at h1 h2
  exact ⟨h1, h2, h3, h4, h5⟩

/-- C6 at `cfg0` (input_dim 4, output_dim 2, zeros initialization) with one relation:
construction succeeds and the counts and shapes hold after any number of resets. -/
theorem C6_witness :
    (0 : Int) < cfg0.input_dim ∧ (0 : Int) < cfg0.output_dim ∧ (0 : Int) ≤ 1 ∧
    ∃ (L : RGCNLayer D0 Int) (g1 : Nat),
      RGCNLayer.new rand0 0 cfg0 1 (Device.ofType DeviceType.kCPU) = Except.ok (L, g1) ∧
      ∀ k : Nat,
        ((resetN rand0 k (L, g1)).1.relation_matrices_.length : Int) = 1 ∧
        ((resetN rand0 k (L, g1)).1.inverse_relation_matrices_.length : Int) = 1 ∧
        (∀ m ∈ (resetN rand0 k (L, g1)).1.relation_matrices_,
          HasShape cfg0.output_dim cfg0.input_dim m) ∧
        (∀ m ∈ (resetN rand0 k (L, g1)).1.inverse_relation_matrices_,
          HasShape cfg0.output_dim cfg0.input_dim m) ∧
        HasShape cfg0.output_dim cfg0.input_dim (resetN rand0 k (L, g1)).1.self_matrix_ :=
  ⟨by decide, by decide, by decide,
   C6_counts_and_shapes_after_construction_and_reset rand0 0 cfg0 1
     (Device.ofType DeviceType.kCPU) (by decide) (by decide) (by decide)⟩

end LayerClaims

/-! ## forward on a target node without neighbors -/

section Forward

variable {D : Decls} {α G : Type}

/-- Adding the zero vector to itself gives the zero vector. -/
theorem vadd_zeroVec_zeroVec [Semiring α] (n : Nat) :
    vadd (zeroVec n : List α) (zeroVec n) = zeroVec n := by
  induction n with
  | zero => rfl
  | succ n ih =>
    unfold vadd zeroVec at ih ⊢
    rw [List.replicate_succ, List.zipWith_cons_cons, ih, add_zero]

/-- Adding a zero vector that is at least as long leaves a vector as it is. -/
theorem vadd_zeroVec [Semiring α] (u : List α) (n : Nat) (h : u.length ≤ n) :
    vadd u (zeroVec n) = u := by
  induction u generalizing n with
  | nil => simp [vadd]
  | cons a u ih =>
    cases n with
    | zero => simp at h
    | succ n =>
      have hn : u.length ≤ n := by simpa using h
      have := ih n hn
      unfold vadd zeroVec at this ⊢
      rw [List.replicate_succ, List.zipWith_cons_cons, this, add_zero]

/-- A target that no edge names has no neighbor sources under any relation and direction. -/
theorem neighborSources_isolated (dense_graph : DenseGraph) (r : Nat) (d : Direction)
    (t : Nat) (h : ∀ e ∈ dense_graph.edges, e.target ≠ t) :
    neighborSources dense_graph r d t = [] := by
  unfold neighborSources
  rw [List.map_eq_nil_iff, List.filter_eq_nil_iff]
  intro e he
  simp only [decide_eq_true_eq, not_and]
  intro _ _
  exact h e he

/-- For a target that no edge names the relation terms sum to the zero vector. -/
theorem relationTerms_isolated [Semiring α] (agg : List (List α) → List α) (out : Nat)
    (inputs : Nat → List α) (dense_graph : DenseGraph) (t : Nat)
    (h : ∀ e ∈ dense_graph.edges, e.target ≠ t) (r : Nat) (ws vs : List (List (List α))) :
    relationTerms agg out inputs dense_graph t r ws vs = zeroVec out := by
  induction ws generalizing r vs with
  | nil => simp [relationTerms]
  | cons w ws ih =>
    cases vs with
    | nil => simp [relationTerms]
    | cons v vs =>
      rw [relationTerms, ih, neighborSources_isolated _ _ _ _ h,
        neighborSources_isolated _ _ _ _ h]
      simp only [aggregate]
      rw [vadd_zeroVec_zeroVec, vadd_zeroVec_zeroVec]

/-- Looking up a target in the result list of forward finds the value computed for it. -/
theorem lookup_map_pair {β : Type} (f : Nat → β) (ts : List Nat) (t : Nat) (h : t ∈ ts) :
    (ts.map (fun u => (u, f u))).lookup t = some (f t) := by
  induction ts with
  | nil => simp at h
  | cons u ts ih =>
    rw [List.map_cons, List.lookup_cons]
    by_cases hu : t = u
    · subst hu
      simp
    · have hne : (t == u) = false := by simpa using hu
      rw [hne]
      rcases List.mem_cons.1 h with h1 | h1
      · exact absurd h1 hu
      · exact ih h1

/-- The output of forward for a target without neighbors, on a layer whose self matrix has
output_dim rows. -/
theorem forwardNode_isolated [Semiring α] (act : D.ActivationFunction → List α → List α)
    (agg : List (List α) → List α) (L : RGCNLayer D α) (inputs : Nat → List α)
    (dense_graph : DenseGraph) (t : Nat)
    (hrows : (L.self_matrix_.length : Int) = L.config_.output_dim)
    (h : ∀ e ∈ dense_graph.edges, e.target ≠ t) :
    forwardNode act agg L inputs dense_graph t =
      act L.config_.activation
        (match L.bias_ with
          | some b => vadd (mulVec L.self_matrix_ (inputs t)) b
          | none => mulVec L.self_matrix_ (inputs t)) := by
  unfold forwardNode
  rw [relationTerms_isolated _ _ _ _ _ h]
  have hlen : (mulVec L.self_matrix_ (inputs t)).length ≤ L.config_.output_dim.toNat := by
    unfold mulVec
    rw [List.length_map]
    omega
  simp only [vadd_zeroVec _ _ hlen]

/-- On a batch whose feature vectors all have length input_dim and whose edges all name a
relation below num_relations, forward returns the list of the targets with their outputs. -/
theorem forward_ok [Semiring α] (act : D.ActivationFunction → List α → List α)
    (agg : List (List α) → List α) (L : RGCNLayer D α) (inputs : Nat → List α)
    (dense_graph : DenseGraph) (train : Bool)
    (hshape : ∀ v ∈ dense_graph.targets ++ dense_graph.edges.map Edge.source,
      ((inputs v).length : Int) = L.config_.input_dim)
    (hrel : ∀ e ∈ dense_graph.edges, (e.relation : Int) < L.num_relations_) :
    forward act agg L inputs dense_graph train =
      Except.ok (dense_graph.targets.map
        (fun t => (t, forwardNode act agg L inputs dense_graph t))) := by
  unfold forward
  have h1 : (dense_graph.targets ++ dense_graph.edges.map Edge.source).any
      (fun v => decide (((inputs v).length : Int) ≠ L.config_.input_dim)) = false := by
    rw [List.any_eq_false]
    intro v hv
    simpa using hshape v hv
  have h2 : dense_graph.edges.any
      (fun e => decide (L.num_relations_ ≤ (e.relation : Int))) = false := by
    rw [List.any_eq_false]
    intro e he
    simpa using hrel e he
  rw [h1, h2]
  rfl

/-- The general statement of C7 for one layer and one batch. -/
theorem forward_isolated [Semiring α] (act : D.ActivationFunction → List α → List α)
    (agg : List (List α) → List α) (L : RGCNLayer D α) (inputs : Nat → List α)
    (dense_graph : DenseGraph) (train : Bool) (t : Nat)
    (hrows : (L.self_matrix_.length : Int) = L.config_.output_dim)
    (ht : t ∈ dense_graph.targets)
    (hiso : ∀ e ∈ dense_graph.edges, e.target ≠ t)
    (hshape : ∀ v ∈ dense_graph.targets ++ dense_graph.edges.map Edge.source,
      ((inputs v).length : Int) = L.config_.input_dim)
    (hrel : ∀ e ∈ dense_graph.edges, (e.relation : Int) < L.num_relations_) :
    ∃ out, forward act agg L inputs dense_graph train = Except.ok out ∧
      out.lookup t = some (act L.config_.activation
        (match L.bias_ with
          | some b => vadd (mulVec L.self_matrix_ (inputs t)) b
          | none => mulVec L.self_matrix_ (inputs t))) := by
  refine ⟨_, forward_ok act agg L inputs dense_graph train hshape hrel, ?_⟩
  rw [lookup_map_pair _ _ _ ht, forwardNode_isolated act agg L inputs dense_graph t hrows hiso]

end Forward

section ForwardZeros

variable {D : Decls} {α G : Type}

/-- A draw from the zeros distribution is zero and leaves the generator state as it is. -/
theorem drawValue_zeros [Zero α] (rand : InitConfig D → G → α × G) (c : InitConfig D) (g : G)
    (hc : c.type = InitDistribution.ZEROS) : drawValue rand c g = (0, g) := by
  unfold drawValue
  rw [hc]

/-- Reinitializing a vector from the zeros distribution gives the zero vector. -/
theorem redrawVector_zeros [Zero α] (rand : InitConfig D → G → α × G) (c : InitConfig D)
    (hc : c.type = InitDistribution.ZEROS) (v : List α) (g : G) :
    redrawVector rand c v g = (List.replicate v.length 0, g) := by
  unfold redrawVector
  induction v generalizing g with
  | nil => rfl
  | cons x xs ih =>
    rw [redrawList, drawValue_zeros rand c g hc, ih]
    rfl

/-- Reinitializing a matrix from the zeros distribution gives the zero matrix. -/
theorem redrawMatrix_zeros [Zero α] (rand : InitConfig D → G → α × G) (c : InitConfig D)
    (hc : c.type = InitDistribution.ZEROS) (m : List (List α)) (g : G) :
    redrawMatrix rand c m g = (m.map (fun r => List.replicate r.length 0), g) := by
  unfold redrawMatrix
  induction m generalizing g with
  | nil => rfl
  | cons x xs ih =>
    rw [redrawList, redrawVector_zeros rand c hc, ih]
    rfl

/-- The modelled constructor on a configuration with positive dimensions, zeros weight
initialization and no bias: the layer it returns carries the configuration and the relation
count, has the zero self matrix and no bias vector. -/
theorem new_zeros [Zero α] (rand : InitConfig D → G → α × G) (g : G) (cfg : LayerConfig D)
    (n : Int) (dev : Device) (hin : 0 < cfg.input_dim) (hout : 0 < cfg.output_dim)
    (hz : cfg.init.type = InitDistribution.ZEROS) (hb : cfg.bias = false) :
    ∃ (L : RGCNLayer D α) (g1 : G), RGCNLayer.new rand g cfg n dev = Except.ok (L, g1) ∧
      L.config_ = cfg ∧ L.num_relations_ = n ∧ L.bias_ = none ∧
      L.self_matrix_ =
        List.replicate cfg.output_dim.toNat (List.replicate cfg.input_dim.toNat 0) := by
  have hne : ¬ (cfg.input_dim ≤ 0 ∨ cfg.output_dim ≤ 0) := by omega
  have hkey : (RGCNLayer.new rand g cfg n dev : Except Error (RGCNLayer D α × G)) =
      Except.ok ((reset rand (RGCNLayer.allocate cfg n dev) g).1,
        (reset rand (RGCNLayer.allocate cfg n dev) g).2) := by
    unfold RGCNLayer.new
    rw [if_neg hne]
  refine ⟨_, _, hkey, ?_, ?_, ?_, ?_⟩
  · rw [reset_config_]; rfl
  · rw [reset_num_relations_]; rfl
  · rw [reset_bias_]
    simp only [RGCNLayer.allocate, hb]
    rfl
  · rw [reset_self_matrix_]
    have hz2 : (RGCNLayer.allocate cfg n dev : RGCNLayer D α).config_.init.type =
        InitDistribution.ZEROS := hz
    rw [redrawMatrix_zeros rand _ hz2]
    simp only [RGCNLayer.allocate, List.map_replicate, List.length_replicate]

/-- The concrete scenario of C7 for one batch. -/
theorem forward_zero_scenario [Semiring α] (rand : InitConfig D → G → α × G) (g0 : G)
    (E : Env D) (act : D.ActivationFunction → List α → List α)
    (agg : List (List α) → List α) (a0 : D.ActivationFunction)
    (hres : E.getActivationFunction "none" = Except.ok a0) (hid : ∀ v, act a0 v = v)
    (num_relations : Int) (device : Option Device) (opts : Option D.InitOptions)
    (bias_init : InitConfig D) (inputs : Nat → List α) (dense_graph : DenseGraph)
    (train : Bool) (t : Nat) (ht : t ∈ dense_graph.targets)
    (hiso : ∀ e ∈ dense_graph.edges, e.target ≠ t)
    (hself : inputs t = [1, 1, 1, 1])
    (hshape : ∀ v ∈ dense_graph.targets ++ dense_graph.edges.map Edge.source,
      ((inputs v).length : Int) = 4)
    (hrel : ∀ e ∈ dense_graph.edges, (e.relation : Int) < num_relations) :
    ∃ (L : RGCNLayer D α) (g1 : G) (out : List (Nat × List α)),
      convenience_init E (RGCNLayer.new rand g0) 4 2 num_relations device
        { type := InitDistribution.ZEROS, options := opts } false bias_init "none" =
        Except.ok (L, g1) ∧
      forward act agg L inputs dense_graph train = Except.ok out ∧
      out.lookup t = some [0, 0] := by
  rw [convenience_init_ok E _ 4 2 num_relations device _ false bias_init "none" a0 hres]
  obtain ⟨L, g1, hL, hc, hn, hb, hs⟩ := new_zeros (α := α) rand g0
    { type := LayerType.GNN, options := E.new_GNNLayerOptions, input_dim := 4,
      output_dim := 2, init := { type := InitDistribution.ZEROS, options := opts },
      optimizer := none, bias := false, bias_init := bias_init, activation := a0 }
    num_relations
    (match device with
      | some d => d
      | none => Device.ofType DeviceType.kCPU)
    (show (0 : Int) < 4 by decide) (show (0 : Int) < 2 by decide) rfl rfl
  have hrows : (L.self_matrix_.length : Int) = L.config_.output_dim := by
    rw [hs, hc]; rfl
  have hshape2 : ∀ v ∈ dense_graph.targets ++ dense_graph.edges.map Edge.source,
      ((inputs v).length : Int) = L.config_.input_dim := by
    rw [hc]; exact hshape
  have hrel2 : ∀ e ∈ dense_graph.edges, (e.relation : Int) < L.num_relations_ := by
    rw [hn]; exact hrel
  obtain ⟨out, ho, hl⟩ := forward_isolated act agg L inputs dense_graph train t hrows ht hiso
    hshape2 hrel2
  refine ⟨L, g1, out, hL, ho, ?_⟩
  rw [hl, hb, hs, hc, hself]
  simp only []
  rw [hid]
  have h2 : (2 : Int).toNat = 2 := rfl
  have h4 : (4 : Int).toNat = 4 := rfl
  rw [h2, h4]
  simp [mulVec, dot, List.replicate]

/-- C7. On every layer that satisfies the invariants of the data model, for every batch that
forward accepts and every target node that no edge of the batch names, forward returns for
that node activation(SelfMatrix · self_features + bias), the bias term being absent exactly
when the configuration has bias = false. In particular a layer constructed with input_dim 4,
output_dim 2, zeros initialization, bias = false and activation "none" (resolving to the
identity) returns [0, 0] for such a node with self-feature [1, 1, 1, 1]. -/
theorem C7_forward_without_neighbors [Semiring α]
    (act : D.ActivationFunction → List α → List α) (agg : List (List α) → List α) :
    (∀ (L : RGCNLayer D α) (inputs : Nat → List α) (dense_graph : DenseGraph) (train : Bool)
        (t : Nat),
      WellShaped L → t ∈ dense_graph.targets →
      (∀ e ∈ dense_graph.edges, e.target ≠ t) →
      (∀ v ∈ dense_graph.targets ++ dense_graph.edges.map Edge.source,
        ((inputs v).length : Int) = L.config_.input_dim) →
      (∀ e ∈ dense_graph.edges, (e.relation : Int) < L.num_relations_) →
      (∃ out, forward act agg L inputs dense_graph train = Except.ok out ∧
        out.lookup t = some (act L.config_.activation
          (match L.bias_ with
            | some b => vadd (mulVec L.self_matrix_ (inputs t)) b
            | none => mulVec L.self_matrix_ (inputs t)))) ∧
      (L.bias_ = none ↔ L.config_.bias = false)) ∧
    (∀ (rand : InitConfig D → G → α × G) (g0 : G) (E : Env D) (a0 : D.ActivationFunction)
        (num_relations : Int) (device : Option Device) (opts : Option D.InitOptions)
        (bias_init : InitConfig D) (inputs : Nat → List α) (dense_graph : DenseGraph)
        (train : Bool) (t : Nat),
      E.getActivationFunction "none" = Except.ok a0 → (∀ v, act a0 v = v) →
      t ∈ dense_graph.targets →
      (∀ e ∈ dense_graph.edges, e.target ≠ t) →
      inputs t = [1, 1, 1, 1] →
      (∀ v ∈ dense_graph.targets ++ dense_graph.edges.map Edge.source,
        ((inputs v).length : Int) = 4) →
      (∀ e ∈ dense_graph.edges, (e.relation : Int) < num_relations) →
      ∃ (L : RGCNLayer D α) (g1 : G) (out : List (Nat × List α)),
        convenience_init E (RGCNLayer.new rand g0) 4 2 num_relations device
          { type := InitDistribution.ZEROS, options := opts } false bias_init "none" =
          Except.ok (L, g1) ∧
        forward act agg L inputs dense_graph train = Except.ok out ∧
        out.lookup t = some [0, 0]) := by
  refine ⟨?_, ?_⟩
  · intro L inputs dense_graph train t hw ht hiso hshape hrel
    refine ⟨forward_isolated act agg L inputs dense_graph train t hw.2.2.2.2.1.1 ht hiso
      hshape hrel, ?_⟩
    have h6 := hw.2.2.2.2.2.1
    rw [← h6]
    cases L.bias_ <;> simp
  · intro rand g0 E a0 num_relations device opts bias_init inputs dense_graph train t hres hid
      ht hiso hself hshape hrel
    exact forward_zero_scenario rand g0 E act agg a0 hres hid num_relations device opts
      bias_init inputs dense_graph train t ht hiso hself hshape hrel

/-- The layer `layer0` satisfies the invariants of the data model. -/
theorem layer0_wellShaped : WellShaped layer0 := by
  simp [WellShaped, HasShape, layer0, cfg0]

/-- C7 at `layer0` (input_dim 4, output_dim 2, one relation, zero matrices, no bias,
identity activation) and the batch `graph0`, whose target 0 has no neighbor and the
self-feature [1, 1, 1, 1]; and at the same layer built through the convenience
constructor. -/
theorem C7_witness :
    WellShaped layer0 ∧
    (∃ out, forward act0 agg0 layer0 inputs0 graph0 true = Except.ok out ∧
      out.lookup 0 = some (act0 layer0.config_.activation
        (match layer0.bias_ with
          | some b => vadd (mulVec layer0.self_matrix_ (inputs0 0)) b
          | none => mulVec layer0.self_matrix_ (inputs0 0)))) ∧
    E0.getActivationFunction "none" = Except.ok false ∧
    (∃ (L : RGCNLayer D0 Int) (g1 : Nat) (out : List (Nat × List Int)),
      convenience_init E0 (RGCNLayer.new rand0 0) 4 2 1 none
        { type := InitDistribution.ZEROS, options := none } false zeros0 "none" =
        Except.ok (L, g1) ∧
      forward act0 agg0 L inputs0 graph0 true = Except.ok out ∧
      out.lookup 0 = some [0, 0]) :=
  ⟨layer0_wellShaped,
   ((C7_forward_without_neighbors (G := Nat) act0 agg0).1 layer0 inputs0 graph0 true 0
      layer0_wellShaped (by decide) (by decide) (by decide) (by decide)).1,
   rfl,
   (C7_forward_without_neighbors act0 agg0).2 rand0 0 E0 false 1 none none zeros0 inputs0
      graph0 true 0 rfl (fun _ => rfl) (by decide) (by decide) rfl (by decide) (by decide)⟩

end ForwardZeros

end RGCNWrap
